import Mathlib

/-!
Verification of the markup board's collaboration core.

The definitions below are a shallow embedding of the repository's source:
 - `src/lib/types.ts`            — the data model (shapes, layers, documents);
 - `src/lib/stores/board.ts`     — reactive document state, undo/redo stacks;
 - `src/lib/components/MarkupBoard.svelte`
                                  — lock coordinator, save pipeline, hit testing;
 - `src/lib/adapters/local.ts`   — the localStorage storage backend.

JavaScript numbers used as coordinates and stroke widths are modelled as ℚ
(the programs only add, subtract, multiply, divide and compare them);
`Math.hypot` is modelled exactly as the real square root of the sum of
squares.  `JSON.parse(JSON.stringify(x))` deep cloning is the identity on the
pure values of the model.  Timer handles are modelled as two booleans
(`heartbeatActive`, `pollActive`); asynchronous backend calls are modelled by
passing their outcome as an explicit argument to the handler that awaits them.
-/

namespace Markup

/-- `Point` from `types.ts`: `{ x: number; y: number }`. -/
structure Point where
  x : ℚ
  y : ℚ
deriving DecidableEq

/-- `Shape` from `types.ts`, restricted to the fields the collaboration core
reads: identity, owning layer, geometry and stroke width.  Presentational
fields (stroke colour, opacity, rotation, font, timestamps, …) are never read
by the store, the save pipeline or the hit tester and are omitted. -/
inductive Shape where
  | arrow (id : String) (layerId : String) (points : List Point) (strokeWidth : Option ℚ)
  | freehand (id : String) (layerId : String) (points : List Point) (strokeWidth : Option ℚ)
  | text (id : String) (layerId : String) (position : Point) (content : String)
deriving DecidableEq

/-- `shape.id`. -/
def Shape.id : Shape → String
  | .arrow i _ _ _ => i
  | .freehand i _ _ _ => i
  | .text i _ _ _ => i

/-- `shape.layerId`. -/
def Shape.layerId : Shape → String
  | .arrow _ l _ _ => l
  | .freehand _ l _ _ => l
  | .text _ l _ _ => l

/-- `Layer` from `types.ts` (the optional `locked` flag is never read). -/
structure Layer where
  id : String
  name : String
  visible : Bool
  zIndex : Int
  shapes : List Shape
deriving DecidableEq

/-- `DocImage` from `types.ts`. -/
structure DocImage where
  dataUrl : String
  width : Nat
  height : Nat
  updatedAt : Nat
  updatedBy : String
deriving DecidableEq

/-- `Comment` from `types.ts`. -/
structure Comment where
  id : String
  text : String
  createdAt : Nat
  createdBy : String
deriving DecidableEq

/-- `DocState` from `types.ts`: one document snapshot. -/
structure DocState where
  docId : String
  image : Option DocImage
  layers : List Layer
  comments : Option (List Comment)
  version : Nat
  updatedAt : Nat
  updatedBy : String
deriving DecidableEq

/-- The mutable state of one browser session: the module-level stores of
`board.ts` (`layers`, `docImage`, `docVersion`, `updatedAt`, `updatedBy`,
`undoStack`, `redoStack`, `comments`) together with the component-local
variables of `MarkupBoard.svelte` (`isEditor`, `saving`,
`lastSavedImageDataUrl`) and the two timers (`lockHeartbeat`, `pollInterval`)
modelled as activity flags. -/
structure SessionState where
  layers : List Layer
  docImage : Option DocImage
  docVersion : Nat
  updatedAt : Nat
  updatedBy : String
  undoStack : List (List Layer)
  redoStack : List (List Layer)
  comments : List Comment
  isEditor : Bool
  saving : Bool
  heartbeatActive : Bool
  pollActive : Bool
  lastSavedImageDataUrl : Option String
deriving DecidableEq

/-- `deepCloneLayers` in `board.ts` is `JSON.parse(JSON.stringify(ls))`:
on the pure values of the model it is the identity. -/
def deepCloneLayers (ls : List Layer) : List Layer := ls

/-- `createEmptyState` in `board.ts`. -/
def createEmptyState (docId : String) (userId : String) (now : Nat) : DocState :=
  { docId := docId
    image := none
    layers := [{ id := "layer-1", name := "Layer 1", visible := true, zIndex := 0, shapes := [] }]
    comments := some []
    version := 0
    updatedAt := now
    updatedBy := userId }

/-- `applyState` in `board.ts`: writes the five document stores; it does not
touch `undoStack`, `redoStack` or `comments`. -/
def applyState (state : DocState) (st : SessionState) : SessionState :=
  { st with
    layers := state.layers
    docImage := state.image
    docVersion := state.version
    updatedAt := state.updatedAt
    updatedBy := state.updatedBy }

/-- `getStateSnapshot` in `board.ts` (comments are not persisted on this path). -/
def getStateSnapshot (docId : String) (userId : String) (st : SessionState) : DocState :=
  { docId := docId
    image := st.docImage
    layers := st.layers
    comments := none
    version := st.docVersion
    updatedAt := st.updatedAt
    updatedBy := userId }

/-- `updateLayer` in `board.ts`: apply `updater` to the layer sequence, push a
deep clone of the previous sequence onto the undo stack, clear the redo stack
and refresh `updatedAt` (`now` stands for `Date.now()`). -/
def updateLayer (updater : List Layer → List Layer) (now : Nat) (st : SessionState) : SessionState :=
  { st with
    layers := updater st.layers
    undoStack := st.undoStack ++ [deepCloneLayers st.layers]
    redoStack := []
    updatedAt := now }

/-- `upsertById` in `board.ts`. -/
def upsertById (arr : List Shape) (item : Shape) : List Shape :=
  match arr.findIdx? (fun x => x.id = item.id) with
  | none => arr ++ [item]
  | some idx => arr.set idx item

/-- `upsertShape` in `board.ts`. -/
def upsertShape (layerId : String) (shape : Shape) (now : Nat) (st : SessionState) : SessionState :=
  updateLayer (fun prev => prev.map fun l =>
    if l.id = layerId then { l with shapes := upsertById l.shapes shape } else l) now st

/-- `deleteShape` in `board.ts`. -/
def deleteShape (layerId : String) (shapeId : String) (now : Nat) (st : SessionState) : SessionState :=
  updateLayer (fun prev => prev.map fun l =>
    if l.id = layerId then { l with shapes := l.shapes.filter fun s => s.id ≠ shapeId } else l) now st

/-- `undo` in `board.ts`: no-op on an empty undo stack; otherwise pop the last
undo entry, push a deep clone of the current layers onto the redo stack and
install the popped entry. -/
def undo (now : Nat) (st : SessionState) : SessionState :=
  match st.undoStack.getLast? with
  | none => st
  | some previous =>
    { st with
      undoStack := st.undoStack.dropLast
      redoStack := st.redoStack ++ [deepCloneLayers st.layers]
      layers := previous
      updatedAt := now }

/-- `redo` in `board.ts`: symmetric to `undo`. -/
def redo (now : Nat) (st : SessionState) : SessionState :=
  match st.redoStack.getLast? with
  | none => st
  | some next =>
    { st with
      redoStack := st.redoStack.dropLast
      undoStack := st.undoStack ++ [deepCloneLayers st.layers]
      layers := next
      updatedAt := now }

/-- A sequence of mutations, each routed through `updateLayer`. -/
def applyMutations (now : Nat) (fs : List (List Layer → List Layer)) (st : SessionState) : SessionState :=
  fs.foldl (fun s f => updateLayer f now s) st

/-- `n` successive `undo` operations. -/
def undoIter (now : Nat) : Nat → SessionState → SessionState
  | 0, st => st
  | n + 1, st => undo now (undoIter now n st)

/-- `Math.hypot(x, y)`: the exact Euclidean norm of `(x, y)`. -/
noncomputable def hypot (x y : ℚ) : ℝ :=
  Real.sqrt ((x : ℝ) ^ 2 + (y : ℝ) ^ 2)

/-- `distancePointToSegment` in `MarkupBoard.svelte`: distance from `p` to
the segment `a`–`b`, the projection parameter clamped to the segment. -/
noncomputable def distancePointToSegment (p a b : Point) : ℝ :=
  let vx := b.x - a.x
  let vy := b.y - a.y
  let wx := p.x - a.x
  let wy := p.y - a.y
  let c1 := vx * wx + vy * wy
  if c1 ≤ 0 then hypot (p.x - a.x) (p.y - a.y)
  else
    let c2 := vx * vx + vy * vy
    if c2 ≤ c1 then hypot (p.x - b.x) (p.y - b.y)
    else
      let t := c1 / c2
      hypot (p.x - (a.x + t * vx)) (p.y - (a.y + t * vy))

/-- Decision procedure for `hypot x y ≤ t`, squaring away the root. -/
def hypotLe (x y t : ℚ) : Bool :=
  decide (0 ≤ t ∧ x ^ 2 + y ^ 2 ≤ t ^ 2)

/-- Decision procedure for `distancePointToSegment p a b ≤ t` (same branch
structure as `distancePointToSegment`, each branch decided by `hypotLe`). -/
def distancePointToSegmentLe (p a b : Point) (t : ℚ) : Bool :=
  let vx := b.x - a.x
  let vy := b.y - a.y
  let wx := p.x - a.x
  let wy := p.y - a.y
  let c1 := vx * wx + vy * wy
  if c1 ≤ 0 then hypotLe (p.x - a.x) (p.y - a.y) t
  else
    let c2 := vx * vx + vy * vy
    if c2 ≤ c1 then hypotLe (p.x - b.x) (p.y - b.y) t
    else
      let tt := c1 / c2
      hypotLe (p.x - (a.x + tt * vx)) (p.y - (a.y + tt * vy)) t

theorem hypotLe_iff (x y t : ℚ) : hypot x y ≤ (t : ℝ) ↔ hypotLe x y t = true := by
  rw [hypot, hypotLe, Real.sqrt_le_iff, decide_eq_true_eq]
  constructor
  · rintro ⟨h1, h2⟩
    exact ⟨by exact_mod_cast h1, by exact_mod_cast h2⟩
  · rintro ⟨h1, h2⟩
    exact ⟨by exact_mod_cast h1, by exact_mod_cast h2⟩

theorem distancePointToSegmentLe_iff (p a b : Point) (t : ℚ) :
    distancePointToSegment p a b ≤ (t : ℝ) ↔ distancePointToSegmentLe p a b t = true := by
  rw [distancePointToSegment, distancePointToSegmentLe]
  dsimp only
  split_ifs <;> exact hypotLe_iff _ _ _

/-- `shape.strokeWidth || 3`: JavaScript `||` replaces both a missing and a
zero stroke width (both falsy) with the default `3`. -/
def effStrokeWidth (sw : Option ℚ) : ℚ :=
  match sw with
  | some w => if w = 0 then 3 else w
  | none => 3

/-- `shouldEraseShapeAt` in `MarkupBoard.svelte`: does the query point `p`
strike the shape, at `strokeWidth + tolerance` for strokes (a freehand path is
hit when any of its consecutive segments is within that threshold; an arrow
with fewer than two points yields `NaN` distances in the source and is never
hit) and at the fixed radius `10 + tolerance` around a text anchor. -/
def shouldEraseShapeAt (shape : Shape) (p : Point) (tolerance : ℚ) : Prop :=
  match shape with
  | .freehand _ _ pts sw =>
      ∃ ab ∈ pts.zip pts.tail,
        distancePointToSegment p ab.1 ab.2 ≤ ((effStrokeWidth sw + tolerance : ℚ) : ℝ)
  | .arrow _ _ pts sw =>
      match pts with
      | a :: b :: _ => distancePointToSegment p a b ≤ ((effStrokeWidth sw + tolerance : ℚ) : ℝ)
      | _ => False
  | .text _ _ pos _ => hypot (p.x - pos.x) (p.y - pos.y) ≤ ((10 + tolerance : ℚ) : ℝ)

/-- Executable form of `shouldEraseShapeAt`. -/
def shouldEraseShapeAtB (shape : Shape) (p : Point) (tolerance : ℚ) : Bool :=
  match shape with
  | .freehand _ _ pts sw =>
      (pts.zip pts.tail).any fun ab =>
        distancePointToSegmentLe p ab.1 ab.2 (effStrokeWidth sw + tolerance)
  | .arrow _ _ pts sw =>
      match pts with
      | a :: b :: _ => distancePointToSegmentLe p a b (effStrokeWidth sw + tolerance)
      | _ => false
  | .text _ _ pos _ => hypotLe (p.x - pos.x) (p.y - pos.y) (10 + tolerance)

theorem shouldEraseShapeAt_iff (shape : Shape) (p : Point) (tolerance : ℚ) :
    shouldEraseShapeAt shape p tolerance ↔ shouldEraseShapeAtB shape p tolerance = true := by
  cases shape with
  | freehand i l pts sw =>
      rw [shouldEraseShapeAt, shouldEraseShapeAtB, List.any_eq_true]
      constructor
      · rintro ⟨ab, hmem, hd⟩
        exact ⟨ab, hmem, (distancePointToSegmentLe_iff _ _ _ _).1 hd⟩
      · rintro ⟨ab, hmem, hd⟩
        exact ⟨ab, hmem, (distancePointToSegmentLe_iff _ _ _ _).2 hd⟩
  | arrow i l pts sw =>
      match pts with
      | [] => simp [shouldEraseShapeAt, shouldEraseShapeAtB]
      | [a] => simp [shouldEraseShapeAt, shouldEraseShapeAtB]
      | a :: b :: rest =>
          exact distancePointToSegmentLe_iff p a b (effStrokeWidth sw + tolerance)
  | text i l pos c => exact hypotLe_iff _ _ _

instance instDecidableShouldErase (shape : Shape) (p : Point) (tolerance : ℚ) :
    Decidable (shouldEraseShapeAt shape p tolerance) :=
  decidable_of_iff (shouldEraseShapeAtB shape p tolerance = true)
    (shouldEraseShapeAt_iff shape p tolerance).symm

/-- `getActiveLayerId` in `MarkupBoard.svelte`: the first visible layer, or
the first layer if none are visible, or `null` when there are no layers. -/
def getActiveLayerId (ls : List Layer) : Option String :=
  match ls.find? (fun l => l.visible) with
  | some l => some l.id
  | none =>
    match ls.head? with
    | some l => some l.id
    | none => none

/-- `eraseAtPoint` in `MarkupBoard.svelte`: one `updateLayer` mutation that
keeps, in the active layer only, the shapes the point does not strike
(`tolerance` defaults to `8` at this call site).  The guard `if (!lid)
return` fires on every falsy id: on `null` (no layer at all) and also on the
empty string, so an active layer whose id is `""` makes the whole call a
no-op. -/
def eraseAtPoint (p : Point) (now : Nat) (st : SessionState) : SessionState :=
  match getActiveLayerId st.layers with
  | none => st
  | some lid =>
      if lid = "" then st
      else
        updateLayer (fun prev => prev.map fun l =>
          if l.id = lid
          then { l with shapes := l.shapes.filter fun s => ! decide (shouldEraseShapeAt s p 8) }
          else l) now st

/-- `startHeartbeat` in `MarkupBoard.svelte`: cancel the poll timer and
(re)start the heartbeat timer. -/
def startHeartbeat (st : SessionState) : SessionState :=
  { st with pollActive := false, heartbeatActive := true }

/-- `startPolling` in `MarkupBoard.svelte`: cancel the heartbeat timer and
(re)start the poll timer. -/
def startPolling (st : SessionState) : SessionState :=
  { st with heartbeatActive := false, pollActive := true }

/-- Outcome of one awaited `lockAdapter.renew` call: the promise resolves with
`{ ok }`, or rejects (a transport error). -/
inductive RenewOutcome where
  | ok (b : Bool)
  | transportError
deriving DecidableEq

/-- One tick of the heartbeat interval in `startHeartbeat`: on `{ok: false}`
drop the editor flag, cancel the heartbeat and start polling; on `{ok: true}`
do nothing; on a rejected promise only `console.warn` (state untouched). -/
def heartbeatTick (r : RenewOutcome) (st : SessionState) : SessionState :=
  match r with
  | .ok true => st
  | .ok false => startPolling { st with isEditor := false, heartbeatActive := false }
  | .transportError => st

/-- Outcome of one awaited `lockAdapter.acquire` call. -/
inductive AcquireOutcome where
  | ok (b : Bool)
  | transportError
deriving DecidableEq

/-- `tryAcquire` in `MarkupBoard.svelte`. -/
def tryAcquire (r : AcquireOutcome) (st : SessionState) : SessionState :=
  match r with
  | .ok true => startHeartbeat { st with isEditor := true }
  | .ok false => startPolling { st with isEditor := false }
  | .transportError => startPolling { st with isEditor := false }

/-- Outcome of `storageAdapter.getDocument(docId).catch(...)` in
`loadInitial`: the document, or any failure (absorbed by the `.catch`). -/
inductive FetchOutcome where
  | ok (d : DocState)
  | failed
deriving DecidableEq

/-- `loadInitial` in `MarkupBoard.svelte`: fetch the document (falling back
to a fresh empty one), apply it, remember the saved image fingerprint, then
try to acquire the lock. -/
def loadInitial (f : FetchOutcome) (a : AcquireOutcome) (docId : String) (userId : String)
    (now : Nat) (st : SessionState) : SessionState :=
  let state := match f with
    | .ok d => d
    | .failed => createEmptyState docId userId now
  let st1 := applyState state st
  let st2 := { st1 with lastSavedImageDataUrl := state.image.map (fun i : DocImage => i.dataUrl) }
  tryAcquire a st2

/-- Outcome of one poll tick in `startPolling`: any throw in the tick body is
swallowed by its empty `catch`; a free lock leads to `tryAcquire`; a held lock
leads to a document refresh. -/
inductive PollOutcome where
  | transportError
  | free (a : AcquireOutcome)
  | held (latest : DocState)
deriving DecidableEq

/-- One tick of the poll interval in `startPolling`. -/
def pollTick (o : PollOutcome) (st : SessionState) : SessionState :=
  match o with
  | .transportError => st
  | .free a => tryAcquire a { st with pollActive := false }
  | .held latest =>
      let st1 := applyState latest st
      { st1 with lastSavedImageDataUrl := latest.image.map (fun i : DocImage => i.dataUrl) }

/-- What `saveStatePartial` sent to `storageAdapter.saveDocument`: the
snapshot's image after the redundant-image omission, and the base version. -/
structure PendingSave where
  sentImage : Option DocImage
  baseVersion : Nat
deriving DecidableEq

/-- The entry of `saveStatePartial` in `MarkupBoard.svelte`, up to the
suspension at `await storageAdapter.saveDocument`: a no-op returning no
request when the session is not editor or a save is already in flight;
otherwise set `saving`, take the snapshot, omit the image when its data URL
equals the last saved one, and issue the request. -/
def saveStart (docId : String) (userId : String) (st : SessionState) :
    SessionState × Option PendingSave :=
  if st.isEditor = false ∨ st.saving = true then (st, none)
  else
    let snapshot := getStateSnapshot docId userId st
    let snapshot :=
      if snapshot.image.map (fun i => i.dataUrl) = st.lastSavedImageDataUrl
      then { snapshot with image := none }
      else snapshot
    ({ st with saving := true }, some { sentImage := snapshot.image, baseVersion := snapshot.version })

/-- Outcome of the awaited `saveDocument` call: success with the new version;
a `version_conflict` error (after which `saveStatePartial` refetches the
latest document — `latest` is that refetched document); any other error. -/
inductive SaveOutcome where
  | ok (version : Nat)
  | versionConflict (latest : DocState)
  | transportError
deriving DecidableEq

/-- The rest of `saveStatePartial` after the suspension: on success adopt the
returned version and, when an image was sent (with a non-empty data URL),
remember its fingerprint; on a version conflict apply the refetched document,
remember its image fingerprint, drop the editor flag and start polling; on any
other error only `console.error`.  The `finally` clause clears `saving`. -/
def saveFinish (pend : PendingSave) (o : SaveOutcome) (st : SessionState) : SessionState :=
  let st1 :=
    match o with
    | .ok version =>
        let stv := { st with docVersion := version }
        match pend.sentImage with
        | some img =>
            if img.dataUrl ≠ ""
            then { stv with lastSavedImageDataUrl := some img.dataUrl }
            else stv
        | none => stv
    | .versionConflict latest =>
        let sta := applyState latest st
        let stb := { sta with
          lastSavedImageDataUrl := latest.image.map (fun i : DocImage => i.dataUrl)
          isEditor := false }
        startPolling stb
    | .transportError => st
  { st1 with saving := false }

/-- Errors of the abstract storage interface (`storage.ts` / spec §7). -/
inductive StorageError where
  | notFound
  | versionConflict
  | transportError
deriving DecidableEq

/-- `getDocument` of the localStorage adapter (`local.ts`): the stored
document under the doc key, or `not_found`. -/
def localGetDocument (store : Option DocState) : Except StorageError DocState :=
  match store with
  | none => .error .notFound
  | some d => .ok d

/-- `saveDocument` of the localStorage adapter (`local.ts`): read the
previously stored document (a failed read is caught and leaves `prev`
undefined), merge the image if it was omitted, bump the stored version by one
ignoring `baseVersion`, store, and return the new version.  It never throws. -/
def localSaveDocument (store : Option DocState) (state : DocState) (_baseVersion : Nat)
    (now : Nat) : Except StorageError (Option DocState × Nat) :=
  let prev : Option DocState := (localGetDocument store).toOption
  let next : DocState :=
    { state with
      image := state.image.or (prev.bind (fun d => d.image))
      version := (prev.map (fun d => d.version)).getD 0 + 1
      updatedAt := now }
  .ok (some next, next.version)

/-- A small concrete session state used to instantiate theorems: one visible
layer holding one arrow, one undo entry, editor role with an active
heartbeat. -/
def sampleLayer : Layer :=
  { id := "layer-1", name := "Layer 1", visible := true, zIndex := 0
    shapes := [.arrow "a1" "layer-1" [{ x := 0, y := 0 }, { x := 2, y := 0 }] (some 3)] }

/-- A hidden second layer, to observe that erase leaves it untouched. -/
def sampleLayerB : Layer :=
  { id := "layer-2", name := "Layer 2", visible := false, zIndex := 1
    shapes := [.text "t1" "layer-2" { x := 0, y := 0 } "note"] }

def sampleState : SessionState :=
  { layers := [sampleLayer, sampleLayerB]
    docImage := none
    docVersion := 1
    updatedAt := 0
    updatedBy := "userA"
    undoStack := [[]]
    redoStack := []
    comments := []
    isEditor := true
    saving := false
    heartbeatActive := true
    pollActive := false
    lastSavedImageDataUrl := none }

/-- A concrete remote document at a newer version, for conflict scenarios. -/
def sampleDoc : DocState :=
  { docId := "doc1", image := none, layers := [sampleLayerB], comments := none
    version := 2, updatedAt := 7, updatedBy := "userB" }

theorem undo_concat (now : Nat) (st : SessionState) (rest : List (List Layer))
    (prev : List Layer) (h : st.undoStack = rest ++ [prev]) :
    undo now st =
      { st with
        undoStack := rest
        redoStack := st.redoStack ++ [st.layers]
        layers := prev
        updatedAt := now } := by
  simp only [undo, h, List.getLast?_concat, List.dropLast_concat, deepCloneLayers]

theorem redo_concat (now : Nat) (st : SessionState) (rest : List (List Layer))
    (next : List Layer) (h : st.redoStack = rest ++ [next]) :
    redo now st =
      { st with
        redoStack := rest
        undoStack := st.undoStack ++ [st.layers]
        layers := next
        updatedAt := now } := by
  simp only [redo, h, List.getLast?_concat, List.dropLast_concat, deepCloneLayers]

theorem undoIter_applyMutations (now : Nat) (fs : List (List Layer → List Layer))
    (st : SessionState) :
    (undoIter now fs.length (applyMutations now fs st)).layers = st.layers ∧
    (undoIter now fs.length (applyMutations now fs st)).undoStack = st.undoStack := by
  induction fs generalizing st with
  | nil => exact ⟨rfl, rfl⟩
  | cons f fs ih =>
      obtain ⟨hl, hu⟩ := ih (updateLayer f now st)
      have hc := undo_concat now (undoIter now fs.length (applyMutations now fs (updateLayer f now st)))
        st.undoStack st.layers hu
      constructor
      · show (undo now (undoIter now fs.length (applyMutations now fs (updateLayer f now st)))).layers
          = st.layers
        rw [hc]
      · show (undo now (undoIter now fs.length (applyMutations now fs (updateLayer f now st)))).undoStack
          = st.undoStack
        rw [hc]

/-- C4: for every starting state and every sequence of mutations routed
through `updateLayer`, performing as many `undo` operations afterwards
restores the layer state from before the first mutation. -/
theorem undo_left_inverse_of_mutations (now : Nat) (fs : List (List Layer → List Layer))
    (st : SessionState) :
    (undoIter now fs.length (applyMutations now fs st)).layers = st.layers :=
  (undoIter_applyMutations now fs st).1

/-- C5: with a non-empty undo stack, `undo` followed by `redo` restores
exactly the layer state that existed before the `undo`. -/
theorem undo_redo_roundtrip (nowU nowR : Nat) (st : SessionState)
    (h : st.undoStack ≠ []) :
    (redo nowR (undo nowU st)).layers = st.layers := by
  obtain ⟨rest, prev, hsplit⟩ : ∃ rest prev, st.undoStack = rest ++ [prev] := by
    rcases st.undoStack.eq_nil_or_concat with h0 | ⟨rest, prev, hsplit⟩
    · exact absurd h0 h
    · exact ⟨rest, prev, by simpa using hsplit⟩
  rw [undo_concat nowU st rest prev hsplit,
    redo_concat nowR _ st.redoStack st.layers rfl]

theorem undo_redo_roundtrip_witness :
    sampleState.undoStack ≠ [] ∧
    (redo 2 (undo 1 sampleState)).layers = sampleState.layers :=
  ⟨by decide, undo_redo_roundtrip 1 2 sampleState (by decide)⟩

/-- C6: every mutation routed through `updateLayer` pushes the (deep-cloned)
pre-mutation layer sequence onto the undo stack and empties the redo stack,
while `undo` and `redo` preserve the total number of history entries (they
only move entries between the two stacks). -/
theorem mutation_history_discipline (f : List Layer → List Layer) (now : Nat)
    (st : SessionState) :
    (updateLayer f now st).undoStack = st.undoStack ++ [deepCloneLayers st.layers] ∧
    (updateLayer f now st).redoStack = [] ∧
    (updateLayer f now st).layers = f st.layers ∧
    (undo now st).undoStack.length + (undo now st).redoStack.length
      = st.undoStack.length + st.redoStack.length ∧
    (redo now st).undoStack.length + (redo now st).redoStack.length
      = st.undoStack.length + st.redoStack.length := by
  refine ⟨rfl, rfl, rfl, ?_, ?_⟩
  · rcases st.undoStack.eq_nil_or_concat with h0 | ⟨rest, prev, hsplit⟩
    · simp [undo, h0]
    · have hsplit2 : st.undoStack = rest ++ [prev] := by simpa using hsplit
      rw [undo_concat now st rest prev hsplit2, hsplit2]
      simp only [List.length_append, List.length_cons, List.length_nil]
      omega
  · rcases st.redoStack.eq_nil_or_concat with h0 | ⟨rest, next, hsplit⟩
    · simp [redo, h0]
    · have hsplit2 : st.redoStack = rest ++ [next] := by simpa using hsplit
      rw [redo_concat now st rest next hsplit2, hsplit2]
      simp only [List.length_append, List.length_cons, List.length_nil]
      omega

/-- C10: `applyState` replaces only the five document stores (layers, image,
version, updated-at, updated-by) and leaves the undo stack, the redo stack and
the comments unchanged; consequently all three reload paths that go through it
— initial load, read-only poll refresh, and version-conflict recovery —
preserve the accumulated undo/redo history (and the comments). -/
theorem applyState_preserves_history (doc : DocState) (st : SessionState) :
    (applyState doc st).undoStack = st.undoStack ∧
    (applyState doc st).redoStack = st.redoStack ∧
    (applyState doc st).comments = st.comments ∧
    (applyState doc st).layers = doc.layers ∧
    (applyState doc st).docImage = doc.image ∧
    (applyState doc st).docVersion = doc.version ∧
    (applyState doc st).updatedAt = doc.updatedAt ∧
    (applyState doc st).updatedBy = doc.updatedBy ∧
    (∀ f a docId userId now,
      (loadInitial f a docId userId now st).undoStack = st.undoStack ∧
      (loadInitial f a docId userId now st).redoStack = st.redoStack ∧
      (loadInitial f a docId userId now st).comments = st.comments) ∧
    (∀ o, (pollTick o st).undoStack = st.undoStack ∧
      (pollTick o st).redoStack = st.redoStack ∧
      (pollTick o st).comments = st.comments) ∧
    (∀ pend latest,
      (saveFinish pend (SaveOutcome.versionConflict latest) st).undoStack = st.undoStack ∧
      (saveFinish pend (SaveOutcome.versionConflict latest) st).redoStack = st.redoStack ∧
      (saveFinish pend (SaveOutcome.versionConflict latest) st).comments = st.comments) := by
  refine ⟨rfl, rfl, rfl, rfl, rfl, rfl, rfl, rfl, ?_, ?_, ?_⟩
  · intro f a docId userId now
    cases f <;> cases a with
    | ok b => cases b <;> exact ⟨rfl, rfl, rfl⟩
    | transportError => exact ⟨rfl, rfl, rfl⟩
  · intro o
    cases o with
    | transportError => exact ⟨rfl, rfl, rfl⟩
    | free a =>
        cases a with
        | ok b => cases b <;> exact ⟨rfl, rfl, rfl⟩
        | transportError => exact ⟨rfl, rfl, rfl⟩
    | held latest => exact ⟨rfl, rfl, rfl⟩
  · intro pend latest
    exact ⟨rfl, rfl, rfl⟩

/-- C2: `saveStatePartial` is a no-op — the whole session state is returned
unchanged and no save request is issued — whenever the session is not Editor
or a save is already in flight (the `saving` flag is the single-flight
guard). -/
theorem persist_noop_unless_eligible (docId userId : String) (st : SessionState)
    (h : st.isEditor = false ∨ st.saving = true) :
    saveStart docId userId st = (st, none) := by
  unfold saveStart
  rw [if_pos h]

theorem persist_noop_unless_eligible_witness :
    ({ sampleState with saving := true }.isEditor = false ∨
      { sampleState with saving := true }.saving = true) ∧
    saveStart "doc1" "userA" { sampleState with saving := true }
      = ({ sampleState with saving := true }, none) :=
  ⟨Or.inr rfl, persist_noop_unless_eligible "doc1" "userA" _ (Or.inr rfl)⟩

/-- C3: a heartbeat tick demotes the session from Editor (cancelling the
heartbeat, starting polling) exactly when `renew` resolves with
`{ok: false}`; a rejected `renew` (transport error) leaves the whole state —
editor flag and active heartbeat included — unchanged, so renewal is retried
at the next tick. -/
theorem heartbeat_demotes_iff_explicit_failure (st : SessionState)
    (hE : st.isEditor = true) (hH : st.heartbeatActive = true) :
    (∀ r, (heartbeatTick r st).isEditor = false ↔ r = RenewOutcome.ok false) ∧
    heartbeatTick RenewOutcome.transportError st = st ∧
    (heartbeatTick RenewOutcome.transportError st).heartbeatActive = true ∧
    (heartbeatTick (RenewOutcome.ok false) st).heartbeatActive = false ∧
    (heartbeatTick (RenewOutcome.ok false) st).pollActive = true := by
  refine ⟨?_, rfl, hH, rfl, rfl⟩
  intro r
  cases r with
  | ok b => cases b <;> simp [heartbeatTick, startPolling, hE]
  | transportError => simp [heartbeatTick, hE]

theorem heartbeat_demotes_iff_explicit_failure_witness :
    heartbeatTick RenewOutcome.transportError sampleState = sampleState ∧
    (heartbeatTick (RenewOutcome.ok false) sampleState).isEditor = false :=
  ⟨(heartbeat_demotes_iff_explicit_failure sampleState rfl rfl).2.1,
    ((heartbeat_demotes_iff_explicit_failure sampleState rfl rfl).1
      (RenewOutcome.ok false)).2 rfl⟩

/-- C1: when an eligible save hits a version conflict, the pipeline issues the
request and, after refetching the authoritative `latest` document, replaces
the local state with it — the local version counter ends equal to
`latest.version` — remembers its image fingerprint, drops the editor flag,
and switches the timers to read-only polling. -/
theorem version_conflict_recovery (docId userId : String) (st : SessionState)
    (latest : DocState) (hE : st.isEditor = true) (hS : st.saving = false) :
    (saveStart docId userId st).2.isSome = true ∧
    ∀ pend,
      (saveFinish pend (SaveOutcome.versionConflict latest) (saveStart docId userId st).1).docVersion
        = latest.version ∧
      (saveFinish pend (SaveOutcome.versionConflict latest) (saveStart docId userId st).1).layers
        = latest.layers ∧
      (saveFinish pend (SaveOutcome.versionConflict latest) (saveStart docId userId st).1).docImage
        = latest.image ∧
      (saveFinish pend (SaveOutcome.versionConflict latest) (saveStart docId userId st).1).isEditor
        = false ∧
      (saveFinish pend (SaveOutcome.versionConflict latest) (saveStart docId userId st).1).pollActive
        = true ∧
      (saveFinish pend (SaveOutcome.versionConflict latest) (saveStart docId userId st).1).heartbeatActive
        = false ∧
      (saveFinish pend (SaveOutcome.versionConflict latest) (saveStart docId userId st).1).saving
        = false ∧
      (saveFinish pend (SaveOutcome.versionConflict latest) (saveStart docId userId st).1).lastSavedImageDataUrl
        = latest.image.map (fun i : DocImage => i.dataUrl) := by
  have hcond : ¬ (st.isEditor = false ∨ st.saving = true) := by
    rw [hE, hS]
    simp
  have hstart : (saveStart docId userId st).1 = { st with saving := true } := by
    unfold saveStart
    rw [if_neg hcond]
  constructor
  · unfold saveStart
    rw [if_neg hcond]
    rfl
  · intro pend
    rw [hstart]
    exact ⟨rfl, rfl, rfl, rfl, rfl, rfl, rfl, rfl⟩

theorem version_conflict_recovery_witness :
    (saveStart "doc1" "userA" sampleState).2.isSome = true ∧
    (saveFinish { sentImage := none, baseVersion := 1 }
        (SaveOutcome.versionConflict sampleDoc)
        (saveStart "doc1" "userA" sampleState).1).docVersion = sampleDoc.version ∧
    (saveFinish { sentImage := none, baseVersion := 1 }
        (SaveOutcome.versionConflict sampleDoc)
        (saveStart "doc1" "userA" sampleState).1).isEditor = false :=
  ⟨(version_conflict_recovery "doc1" "userA" sampleState sampleDoc rfl rfl).1,
    ((version_conflict_recovery "doc1" "userA" sampleState sampleDoc rfl rfl).2
      { sentImage := none, baseVersion := 1 }).1,
    ((version_conflict_recovery "doc1" "userA" sampleState sampleDoc rfl rfl).2
      { sentImage := none, baseVersion := 1 }).2.2.2.1⟩

/-- C9: the localStorage adapter's `saveDocument` never fails — in particular
it never raises a version conflict: its result is the same for every
`baseVersion`, and it stores the document with version `previous + 1` (`1`
when nothing was stored), so the interface's optimistic-concurrency check is
not enforced by this backend. -/
theorem localSave_ignores_baseVersion (store : Option DocState) (state : DocState)
    (bv bv2 now : Nat) :
    localSaveDocument store state bv now = localSaveDocument store state bv2 now ∧
    ∃ next : DocState,
      localSaveDocument store state bv now = Except.ok (some next, next.version) ∧
      next.version = (store.map (fun d : DocState => d.version)).getD 0 + 1 := by
  refine ⟨rfl, ?_⟩
  cases store with
  | none => exact ⟨_, rfl, rfl⟩
  | some d => exact ⟨_, rfl, rfl⟩

/-- C7: erasing at a point is one `updateLayer` mutation (hence one undo
entry and a cleared redo stack) that filters the active layer — the first
visible layer, or the first layer if none are visible — through the hit test
`shouldEraseShapeAt`, removing every hit shape at once, and returns every
layer with a different id unchanged at its position.  The active layer id
must be non-empty: an empty id is falsy in the source's `if (!lid) return`
guard and makes the call a no-op. -/
theorem erase_batched_on_active_layer (p : Point) (now : Nat) (st : SessionState)
    (lid : String) (h : getActiveLayerId st.layers = some lid) (hne : lid ≠ "") :
    (eraseAtPoint p now st).undoStack = st.undoStack ++ [st.layers] ∧
    (eraseAtPoint p now st).redoStack = [] ∧
    (eraseAtPoint p now st).layers.length = st.layers.length ∧
    (∀ i : Nat, ∀ l : Layer, st.layers[i]? = some l →
      (l.id = lid →
        (eraseAtPoint p now st).layers[i]? =
          some { l with shapes := l.shapes.filter fun s => ! decide (shouldEraseShapeAt s p 8) }) ∧
      (l.id ≠ lid → (eraseAtPoint p now st).layers[i]? = some l)) ∧
    (∀ ls : List Layer, ∀ l : Layer, ls.find? (fun x => x.visible) = some l →
      getActiveLayerId ls = some l.id) ∧
    (∀ ls : List Layer, ls.find? (fun x => x.visible) = none →
      getActiveLayerId ls = ls.head?.map (fun l : Layer => l.id)) := by
  have he : eraseAtPoint p now st
      = updateLayer (fun prev => prev.map fun l =>
          if l.id = lid
          then { l with shapes := l.shapes.filter fun s => ! decide (shouldEraseShapeAt s p 8) }
          else l) now st := by
    unfold eraseAtPoint
    rw [h]
    exact if_neg hne
  refine ⟨by rw [he]; rfl, by rw [he]; rfl, by rw [he]; simp [updateLayer], ?_, ?_, ?_⟩
  · intro i l hl
    have hmap : (eraseAtPoint p now st).layers[i]? =
        some (if l.id = lid
          then { l with shapes := l.shapes.filter fun s => ! decide (shouldEraseShapeAt s p 8) }
          else l) := by
      rw [he]
      simp [updateLayer, List.getElem?_map, hl]
    constructor
    · intro hid
      rw [hmap, if_pos hid]
    · intro hid
      rw [hmap, if_neg hid]
  · intro ls l hf
    unfold getActiveLayerId
    rw [hf]
  · intro ls hf
    unfold getActiveLayerId
    rw [hf]
    cases ls.head? <;> rfl

theorem erase_batched_on_active_layer_witness :
    (eraseAtPoint { x := 1, y := 0 } 3 sampleState).undoStack
      = sampleState.undoStack ++ [sampleState.layers] ∧
    (eraseAtPoint { x := 1, y := 0 } 3 sampleState).layers.length
      = sampleState.layers.length :=
  ⟨(erase_batched_on_active_layer { x := 1, y := 0 } 3 sampleState "layer-1" rfl
      (by decide)).1,
    (erase_batched_on_active_layer { x := 1, y := 0 } 3 sampleState "layer-1" rfl
      (by decide)).2.2.1⟩

theorem distancePointToSegment_self_left (a b : Point) :
    distancePointToSegment a a b = 0 := by
  unfold distancePointToSegment
  norm_num [hypot]

theorem distancePointToSegment_self_right (a b : Point) :
    distancePointToSegment b a b = 0 := by
  unfold distancePointToSegment
  dsimp only
  split_ifs with h1 h2
  · have hx : b.x - a.x = 0 := by nlinarith [sq_nonneg (b.x - a.x), sq_nonneg (b.y - a.y)]
    have hy : b.y - a.y = 0 := by nlinarith [sq_nonneg (b.x - a.x), sq_nonneg (b.y - a.y)]
    rw [hx, hy]
    norm_num [hypot]
  · norm_num [hypot]
  · exact absurd (le_refl _) h2

/-- C8 (amended to positive stroke widths): for an arrow with
`strokeWidth > 0` and any `tolerance ≥ 0`, a query point on either endpoint
of the segment is always a hit, and a query point at distance
`strokeWidth + tolerance + 1` from the segment is never a hit.  (At
`strokeWidth = 0` the source's `strokeWidth || 3` substitutes the default 3,
so the second half fails — see the counterexample.) -/
theorem arrow_hit_bounds (idS lidS : String) (a b p : Point) (sw tol : ℚ)
    (hsw : 0 < sw) (htol : 0 ≤ tol) :
    ((p = a ∨ p = b) →
      shouldEraseShapeAt (.arrow idS lidS [a, b] (some sw)) p tol) ∧
    (distancePointToSegment p a b = ((sw + tol + 1 : ℚ) : ℝ) →
      ¬ shouldEraseShapeAt (.arrow idS lidS [a, b] (some sw)) p tol) := by
  have heff : effStrokeWidth (some sw) = sw := by
    simp [effStrokeWidth, ne_of_gt hsw]
  constructor
  · intro hpe
    show distancePointToSegment p a b ≤ ((effStrokeWidth (some sw) + tol : ℚ) : ℝ)
    have hd : distancePointToSegment p a b = 0 := by
      rcases hpe with rfl | rfl
      · exact distancePointToSegment_self_left _ _
      · exact distancePointToSegment_self_right _ _
    rw [heff, hd]
    have hq : (0 : ℚ) ≤ sw + tol := by linarith
    exact_mod_cast hq
  · intro hd hhit
    have hle : distancePointToSegment p a b ≤ ((effStrokeWidth (some sw) + tol : ℚ) : ℝ) := hhit
    rw [heff, hd] at hle
    have : (sw + tol + 1 : ℚ) ≤ sw + tol := by exact_mod_cast hle
    linarith

theorem arrow_hit_bounds_witness :
    (0 : ℚ) < 1 ∧ (0 : ℚ) ≤ 0 ∧
    shouldEraseShapeAt
      (.arrow "a1" "layer-1" [{ x := 0, y := 0 }, { x := 3, y := 0 }] (some 1))
      { x := 0, y := 0 } 0 :=
  ⟨by norm_num, le_refl 0,
    (arrow_hit_bounds "a1" "layer-1" { x := 0, y := 0 } { x := 3, y := 0 }
      { x := 0, y := 0 } 1 0 (by norm_num) (le_refl 0)).1 (Or.inl rfl)⟩

/-- Counterexample to C8 as stated: the arrow from (0,0) to (2,0) with
`strokeWidth = 0 ≥ 0` and `tolerance = 0 ≥ 0`; the point (1,1) lies at
distance `strokeWidth + tolerance + 1 = 1` from the segment, yet the hit test
accepts it, because `strokeWidth || 3` turns the zero stroke width into the
default 3 and the threshold into `3 + tolerance = 3 ≥ 1`. -/
theorem arrow_hit_claim_counterexample :
    (0 : ℚ) ≤ 0 ∧
    distancePointToSegment { x := 1, y := 1 } { x := 0, y := 0 } { x := 2, y := 0 }
      = (((0 : ℚ) + 0 + 1 : ℚ) : ℝ) ∧
    shouldEraseShapeAt
      (.arrow "a0" "layer-1" [{ x := 0, y := 0 }, { x := 2, y := 0 }] (some 0))
      { x := 1, y := 1 } 0 := by
  have hdist : distancePointToSegment { x := 1, y := 1 } { x := 0, y := 0 } { x := 2, y := 0 }
      = (((0 : ℚ) + 0 + 1 : ℚ) : ℝ) := by
    unfold distancePointToSegment
    norm_num [hypot]
  refine ⟨le_refl 0, hdist, ?_⟩
  show distancePointToSegment { x := 1, y := 1 } { x := 0, y := 0 } { x := 2, y := 0 }
      ≤ ((effStrokeWidth (some 0) + 0 : ℚ) : ℝ)
  rw [hdist]
  norm_num [effStrokeWidth]

end Markup
